import Mathlib

/-!
# Verification of `src/transform.c` (xinput `map-to-crtc` subcommand)

A shallow embedding of the coordinate-transformation-matrix unit of the
xinput tool: the 3×3 matrix utility, the transformation builder
(`set_transformation_matrix`), the device-property applier (`apply_matrix`),
the two backend resolvers (`map_crtc_xrandr`, `map_crtc_xinerama`) and the
dispatcher (`map_to_crtc`).

Modelling conventions:
* C `float`/`double` ratio arithmetic is embedded as exact rational
  arithmetic over `ℚ` (the spec states the builder's algorithm in exact
  division form).
* The display connection is replaced by explicit environment records that
  hold the responses the X server would give (display geometry, screen
  resources, Xinerama screens, atoms, the property-read reply).
* Observable effects are made explicit: diagnostics are accumulated as
  `(stream, message)` pairs, the property write as `wrote`, buffer
  ownership as `freedBuffer`/`readPerformed`, and a C out-of-bounds or
  uninitialized read (undefined behavior) as the `oob` flag.
-/

/-- Output stream of a diagnostic: C `printf` goes to `stdout`,
`fprintf(stderr, ...)` to `stderr`. -/
inductive OutStream where
  | stdout
  | stderr
deriving DecidableEq, Repr

/-- `EXIT_SUCCESS` from `<stdlib.h>`. -/
def EXIT_SUCCESS : ℕ := 0

/-- `EXIT_FAILURE` from `<stdlib.h>`. -/
def EXIT_FAILURE : ℕ := 1

/-- X protocol `Success` status. -/
def Success : ℕ := 0

/-- `RR_Connected` from `<X11/extensions/randr.h>`. -/
def RR_Connected : ℕ := 0

/-- The `Matrix` struct of transform.c: 9 floats, row-major. -/
abbrev Matrix3 := Fin 9 → ℚ

/-- Flattened row-major index `row * 3 + col` used by `matrix_set`. -/
def midx (row col : Fin 3) : Fin 9 :=
  ⟨row.val * 3 + col.val, by have h1 := row.isLt; have h2 := col.isLt; omega⟩

/-- `matrix_set(m, row, col, val)`: write `val` at `m[row*3+col]`. -/
def matrix_set (m : Matrix3) (row col : Fin 3) (val : ℚ) : Matrix3 :=
  Function.update m (midx row col) val

/-- `matrix_set_unity(m)`: `memset` the 9 entries to zero, then set the
diagonal entries (0,0), (1,1), (2,2) to 1.  The previous contents of `m`
are fully overwritten. -/
def matrix_set_unity (_m : Matrix3) : Matrix3 :=
  matrix_set (matrix_set (matrix_set (fun _ => 0) 0 0 1) 1 1 1) 2 2 1

/-- `set_transformation_matrix(dpy, m, offset_x, offset_y, screen_width,
screen_height)`.  `width`/`height` stand for `DisplayWidth`/`DisplayHeight`
of the default screen of `dpy`. -/
def set_transformation_matrix (width height : ℤ) (m : Matrix3)
    (offset_x offset_y screen_width screen_height : ℤ) : Matrix3 :=
  let x : ℚ := (offset_x : ℚ) / (width : ℚ)
  let y : ℚ := (offset_y : ℚ) / (height : ℚ)
  let w : ℚ := (screen_width : ℚ) / (width : ℚ)
  let h : ℚ := (screen_height : ℚ) / (height : ℚ)
  let m1 := matrix_set_unity m
  let m2 := matrix_set m1 0 2 x
  let m3 := matrix_set m2 1 2 y
  let m4 := matrix_set m3 0 0 w
  matrix_set m4 1 1 h

/-- The reply of `XIGetProperty` for the
"Coordinate Transformation Matrix" property. -/
structure PropRead where
  rc : ℕ
  type_return : ℕ
  format_return : ℕ
  nitems : ℕ
  bytes_after : ℕ
deriving DecidableEq, Repr

/-- Server-side state seen by `apply_matrix`: the two interned atoms
(0 encodes `None`, i.e. the atom does not exist on an old server) and the
property-read reply. -/
structure XEnv where
  atomFLOAT : ℕ
  atomMatrix : ℕ
  propRead : PropRead
deriving DecidableEq, Repr

/-- Observable outcome of `apply_matrix`. -/
structure ApplyResult where
  status : ℕ
  messages : List (OutStream × String)
  wrote : Option (List ℚ)
  freedBuffer : Bool
  readPerformed : Bool
deriving DecidableEq, Repr

/-- The 9 floats of a matrix in row-major order, as `memcpy`/
`XIChangeProperty` would transmit them. -/
def matrixValues (m : Matrix3) : List ℚ :=
  (List.finRange 9).map m

def floatAtomMsg : String := "Float atom not found. This server is too old."

def matrixAtomMsg : String :=
  "Coordinate transformation matrix not found. This server is too old"

def retrieveFailMsg : String := "Failed to retrieve current property values"

/-- `apply_matrix(dpy, deviceid, m)`: intern the two atoms, read the
existing property, validate the reply, and overwrite the property with the
9 floats of `m`.  `XFree(data.c)` is only reached on the success path of
the source. -/
def apply_matrix (env : XEnv) (deviceid : ℕ) (m : Matrix3) : ApplyResult :=
  let prop_float := env.atomFLOAT
  let prop_matrix := env.atomMatrix
  if prop_float = 0 then
    ⟨EXIT_FAILURE, [(OutStream.stderr, floatAtomMsg)], none, false, false⟩
  else if prop_matrix = 0 then
    ⟨EXIT_FAILURE, [(OutStream.stderr, matrixAtomMsg)], none, false, false⟩
  else
    let r := env.propRead
    if r.rc ≠ Success ∨ prop_float ≠ r.type_return ∨ r.format_return ≠ 32 ∨
        r.nitems ≠ 9 ∨ r.bytes_after ≠ 0 then
      ⟨EXIT_FAILURE, [(OutStream.stderr, retrieveFailMsg)], none, false, true⟩
    else
      ⟨EXIT_SUCCESS, [], some (matrixValues m), true, true⟩

/-- The `XRRCrtcInfo` fields consumed by the RandR resolver. -/
structure CrtcInfo where
  x : ℤ
  y : ℤ
  width : ℤ
  height : ℤ
deriving DecidableEq, Repr

/-- One entry of the screen-resource set: the `XRROutputInfo` for an
output together with the `XRRCrtcInfo` the server would return for the
output's assigned CRTC (`crtc = 0` encodes "no assigned CRTC"). -/
structure OutputInfo where
  crtc : ℕ
  connection : ℕ
  name : String
  crtcInfo : CrtcInfo
deriving DecidableEq, Repr

/-- One `XineramaScreenInfo` entry. -/
structure ScreenInfo where
  x_org : ℤ
  y_org : ℤ
  width : ℤ
  height : ℤ
deriving DecidableEq, Repr

/-- Observable outcome of a resolver / of the dispatcher.  `oob` records
that C undefined behavior was reached (an out-of-bounds array read or a
read of an uninitialized loop variable); everything after such a read is
meaningless, so the model stops there. -/
structure MapResult where
  status : ℕ
  messages : List (OutStream × String)
  wrote : Option (List ℚ)
  oob : Bool
deriving DecidableEq, Repr

/-- Environment of `map_crtc_xrandr`: display geometry, the screen
resources (`XRRGetScreenResources`), and the property-protocol state. -/
structure RandrEnv where
  width : ℤ
  height : ℤ
  outputs : List OutputInfo
  xenv : XEnv

/-- Environment of `map_crtc_xinerama`: extension presence, display
geometry, the `XineramaQueryScreens` reply, and the property-protocol
state. -/
structure XinEnv where
  extPresent : Bool
  width : ℤ
  height : ℤ
  screens : List ScreenInfo
  xenv : XEnv

def notFoundMsg (output_name : String) : String :=
  s!"Unable to find output \x27{output_name}\x27. Output may not be connected."

/-- The search loop of `map_crtc_xrandr` (lines 149–161): iterate over the
outputs in server order; outputs with no CRTC or not connected are
skipped by `continue`; otherwise `crtc_info` (the accumulator) is
overwritten with the current output's CRTC info, and the loop breaks with
`found = 1` when the name matches.  Returns the final `(found, crtc_info)`
pair; `crtc_info = none` models the variable still being uninitialized. -/
def xrandrLoop (output_name : String) :
    List OutputInfo → Option CrtcInfo → Bool × Option CrtcInfo
  | [], last => (false, last)
  | o :: rest, last =>
    if o.crtc = 0 ∨ o.connection ≠ RR_Connected then
      xrandrLoop output_name rest last
    else if o.name = output_name then
      (true, some o.crtcInfo)
    else
      xrandrLoop output_name rest (some o.crtcInfo)

/-- `map_crtc_xrandr(dpy, deviceid, output_name)`. -/
def map_crtc_xrandr (env : RandrEnv) (deviceid : ℕ) (m0 : Matrix3)
    (output_name : String) : MapResult :=
  match xrandrLoop output_name env.outputs none with
  | (true, some crtc_info) =>
    let m := set_transformation_matrix env.width env.height
      (matrix_set_unity m0) crtc_info.x crtc_info.y crtc_info.width
      crtc_info.height
    let a := apply_matrix env.xenv deviceid m
    ⟨a.status, a.messages, a.wrote, false⟩
  | (true, none) =>
    -- `found` with `crtc_info` never assigned: unreachable in the source
    -- loop; reading it would be undefined behavior.
    ⟨EXIT_FAILURE, [], none, true⟩
  | (false, _) =>
    ⟨EXIT_FAILURE, [(OutStream.stdout, notFoundMsg output_name)], none,
      false⟩

def xineramaMissingMsg : String :=
  "Unable to set screen mapping. Xinerama extension not found"

def invalidNameMsg : String :=
  "Please specify the output name as HEAD-X,where X is the screen number"

def noScreensMsg : String := "Xinerama failed to query screens."

def outOfRangeMsg (nscreens : ℤ) (output_name : String) : String :=
  s!"Found {nscreens} screens, but you requested {output_name}."

/-- The characters of the `"HEAD-"` prefix (its `strlen` is 5). -/
def headPrefixList : List Char := ("HEAD-").toList

/-- `map_crtc_xinerama(dpy, deviceid, output_name)`.  The parsed head
index is `output_name[5] - '0'`, an `int` that is negative when the
character is below `'0'`; the source indexes `screens[head]` without a
lower-bound check, so a negative index is an out-of-bounds read (`oob`). -/
def map_crtc_xinerama (env : XinEnv) (deviceid : ℕ) (m0 : Matrix3)
    (output_name : String) : MapResult :=
  -- `head = output_name[5] - '0'` and `nscreens` are written inline below
  -- (the C locals are pure, so inlining them is semantics-preserving).
  if env.extPresent = false then
    ⟨EXIT_FAILURE, [(OutStream.stderr, xineramaMissingMsg)], none, false⟩
  else if output_name.toList.length < 6 ∨
      output_name.toList.take 5 ≠ headPrefixList then
    ⟨EXIT_FAILURE, [(OutStream.stderr, invalidNameMsg)], none, false⟩
  else if (env.screens.length : ℤ) = 0 then
    ⟨EXIT_FAILURE, [(OutStream.stderr, noScreensMsg)], none, false⟩
  else if (env.screens.length : ℤ) ≤
      ((output_name.toList.getD 5 ' ').toNat : ℤ) - 48 then
    ⟨EXIT_FAILURE,
      [(OutStream.stderr,
        outOfRangeMsg (env.screens.length : ℤ) output_name)], none, false⟩
  else if hin : 0 ≤ ((output_name.toList.getD 5 ' ').toNat : ℤ) - 48 ∧
      (((output_name.toList.getD 5 ' ').toNat : ℤ) - 48).toNat <
        env.screens.length then
    let s := env.screens.get
      ⟨(((output_name.toList.getD 5 ' ').toNat : ℤ) - 48).toNat, hin.2⟩
    let m := set_transformation_matrix env.width env.height
      (matrix_set_unity m0) s.x_org s.y_org s.width s.height
    let a := apply_matrix env.xenv deviceid m
    ⟨a.status, a.messages, a.wrote, false⟩
  else
    -- `head < 0`: `screens[head]` reads out of bounds.
    ⟨EXIT_FAILURE, [], none, true⟩

inductive Backend where
  | xinerama
  | randr
deriving DecidableEq, Repr

/-- `XRRQueryVersion` result: `none` when the call fails, otherwise the
reported `(major, minor)` pair; the source tests `maj * 1000 + min < 1002`. -/
def rrVersionBelow (ver : Option (ℤ × ℤ)) : Bool :=
  match ver with
  | none => true
  | some (maj, mi) => decide (maj * 1000 + mi < 1002)

/-- The backend selection of `map_to_crtc` (lines 257–262): Xinerama when
NV-CONTROL is present, or RANDR is absent, or the version query fails, or
the reported version encodes below 1002. -/
def selectBackend (nvPresent randrPresent : Bool)
    (rrVersion : Option (ℤ × ℤ)) : Backend :=
  if nvPresent || !randrPresent || rrVersionBelow rrVersion then
    Backend.xinerama
  else
    Backend.randr

/-- Environment of the dispatcher `map_to_crtc`: extension presence and
version replies, the device lookup (`xi2_find_device_info`), and the two
resolvers' environments. -/
structure DispatchEnv where
  nvPresent : Bool
  randrPresent : Bool
  rrVersion : Option (ℤ × ℤ)
  device : String → Option ℕ
  randr : RandrEnv
  xin : XinEnv

def usageMsg (name desc : String) : String := s!"Usage: xinput {name} {desc}"

def deviceNotFoundMsg (d : String) : String := s!"unable to find device {d}"

/-- `map_to_crtc(dpy, argc, argv, name, desc)`. -/
def map_to_crtc (env : DispatchEnv) (m0 : Matrix3) (argc : ℕ)
    (argv : List String) (name desc : String) : MapResult :=
  if argc < 2 then
    ⟨EXIT_FAILURE, [(OutStream.stderr, usageMsg name desc)], none, false⟩
  else
    match env.device (argv.getD 0 "") with
    | none =>
      ⟨EXIT_FAILURE, [(OutStream.stderr, deviceNotFoundMsg (argv.getD 0 ""))],
        none, false⟩
    | some deviceid =>
      -- `crtc_name = argv[1]`, inlined.
      match selectBackend env.nvPresent env.randrPresent env.rrVersion with
      | Backend.xinerama =>
        map_crtc_xinerama env.xin deviceid m0 (argv.getD 1 "")
      | Backend.randr =>
        map_crtc_xrandr env.randr deviceid m0 (argv.getD 1 "")

/-- A valid property-protocol environment: both atoms interned, and the
read reply well-formed (9 elements of 32-bit FLOAT, nothing remaining). -/
def xenvOK : XEnv := ⟨1, 2, ⟨0, 1, 32, 9, 0⟩⟩

/-- An arbitrary "uninitialized" stack matrix. -/
def zeroM : Matrix3 := fun _ => 0

/-- The identity matrix, row-major. -/
def identityMatrix : Matrix3 := fun i =>
  if i.val = 0 ∨ i.val = 4 ∨ i.val = 8 then 1 else 0

/-- The expected matrix for the right half of a 1920×1080 display:
m00 = 0.5, m02 = 0.5, m11 = 1, m22 = 1, every other entry 0. -/
def rightHalfMatrix : Matrix3 := fun i =>
  if i.val = 0 then 1 / 2
  else if i.val = 2 then 1 / 2
  else if i.val = 4 then 1
  else if i.val = 8 then 1 else 0

/-- The claim's wording of "RandR version below 1.2" (query failure counts
as no usable 1.2 report). -/
def versionBelow12 : Option (ℤ × ℤ) → Prop
  | none => True
  | some (maj, mi) => maj < 1 ∨ (maj = 1 ∧ mi < 2)

instance : ∀ v, Decidable (versionBelow12 v)
  | none => Decidable.isTrue trivial
  | some (maj, mi) =>
    inferInstanceAs (Decidable (maj < 1 ∨ (maj = 1 ∧ mi < 2)))

/-- The claim's backend-selection condition, stated in the spec's words:
Xinerama iff NV-CONTROL present, or RANDR absent, or RandR version below
1.2. -/
def specSelectsXinerama (nvPresent randrPresent : Bool)
    (rrVersion : Option (ℤ × ℤ)) : Prop :=
  nvPresent = true ∨ randrPresent = false ∨ versionBelow12 rrVersion

instance (nvPresent randrPresent : Bool) (rrVersion : Option (ℤ × ℤ)) :
    Decidable (specSelectsXinerama nvPresent randrPresent rrVersion) :=
  inferInstanceAs
    (Decidable (nvPresent = true ∨ randrPresent = false ∨
      versionBelow12 rrVersion))

/-- The claim's description of the RandR scan: filter the server-ordered
outputs down to those with an assigned CRTC and a connected state, then
take the first whose name exactly equals the requested name. -/
def firstMatchingOutput (outputs : List OutputInfo) (output_name : String) :
    Option OutputInfo :=
  (outputs.filter fun o => (o.crtc != 0) && (o.connection == RR_Connected)).find?
    (fun o => o.name == output_name)

/-- A screen-resource set with one disconnected output, one output with no
CRTC, and one connected output "LVDS1" driving the left 960×1080 half. -/
def envR5 : RandrEnv :=
  ⟨1920, 1080,
    [⟨0, 0, "DP1", ⟨5, 5, 5, 5⟩⟩,
     ⟨2, 1, "HDMI1", ⟨6, 6, 6, 6⟩⟩,
     ⟨1, 0, "LVDS1", ⟨0, 0, 960, 1080⟩⟩], xenvOK⟩

/-- Two Xinerama screens: a 1920×1080 display split into left and right
960×1080 halves. -/
def envXin2 : XinEnv :=
  ⟨true, 1920, 1080, [⟨0, 0, 960, 1080⟩, ⟨960, 0, 960, 1080⟩], xenvOK⟩

/-- One Xinerama screen covering a 100×100 display. -/
def envXin1 : XinEnv := ⟨true, 100, 100, [⟨0, 0, 100, 100⟩], xenvOK⟩

/-- A dispatcher environment: no NV-CONTROL, RANDR 1.3 present, device
lookup resolving every name to device 7, with `envR5`/`envXin2` as the
backend environments. -/
def envD8 : DispatchEnv :=
  ⟨false, true, some (1, 3), fun _ => some 7, envR5, envXin2⟩

/-- Closed form of the transformation builder: only the flattened entries
0 (= (0,0)), 2 (= (0,2)), 4 (= (1,1)), 5 (= (1,2)) and 8 (= (2,2)) are
nonzero. -/
theorem stm_closed (width height : ℤ) (m : Matrix3)
    (offset_x offset_y screen_width screen_height : ℤ) :
    set_transformation_matrix width height m offset_x offset_y screen_width
        screen_height =
      fun i : Fin 9 =>
        if i.val = 0 then (screen_width : ℚ) / (width : ℚ)
        else if i.val = 2 then (offset_x : ℚ) / (width : ℚ)
        else if i.val = 4 then (screen_height : ℚ) / (height : ℚ)
        else if i.val = 5 then (offset_y : ℚ) / (height : ℚ)
        else if i.val = 8 then 1 else 0 := by
  funext i
  fin_cases i <;> rfl

/-- C1: for display width `W > 0`, height `H > 0` and rectangle
`(offset_x, offset_y, rect_w, rect_h)`, the transformation builder
produces entry (0,0) = rect_w/W, (1,1) = rect_h/H, (0,2) = offset_x/W,
(1,2) = offset_y/H, all remaining off-diagonal entries 0, and bottom row
[0,0,1]. -/
theorem C1_builder_entries (width height offset_x offset_y rect_w rect_h : ℤ)
    (m : Matrix3) (hW : 0 < width) (hH : 0 < height) :
    (set_transformation_matrix width height m offset_x offset_y rect_w rect_h)
        (midx 0 0) = (rect_w : ℚ) / (width : ℚ) ∧
    (set_transformation_matrix width height m offset_x offset_y rect_w rect_h)
        (midx 1 1) = (rect_h : ℚ) / (height : ℚ) ∧
    (set_transformation_matrix width height m offset_x offset_y rect_w rect_h)
        (midx 0 2) = (offset_x : ℚ) / (width : ℚ) ∧
    (set_transformation_matrix width height m offset_x offset_y rect_w rect_h)
        (midx 1 2) = (offset_y : ℚ) / (height : ℚ) ∧
    (set_transformation_matrix width height m offset_x offset_y rect_w rect_h)
        (midx 0 1) = 0 ∧
    (set_transformation_matrix width height m offset_x offset_y rect_w rect_h)
        (midx 1 0) = 0 ∧
    (set_transformation_matrix width height m offset_x offset_y rect_w rect_h)
        (midx 2 0) = 0 ∧
    (set_transformation_matrix width height m offset_x offset_y rect_w rect_h)
        (midx 2 1) = 0 ∧
    (set_transformation_matrix width height m offset_x offset_y rect_w rect_h)
        (midx 2 2) = 1 := by
  rw [stm_closed]
  exact ⟨rfl, rfl, rfl, rfl, rfl, rfl, rfl, rfl, rfl⟩

/-- Witness for C1 at display 1920×1080, rectangle (960, 0, 960, 1080). -/
theorem C1_builder_entries_witness :
    (set_transformation_matrix 1920 1080 zeroM 960 0 960 1080) (midx 0 0) =
      1 / 2 := by
  have h :=
    C1_builder_entries 1920 1080 960 0 960 1080 zeroM (by norm_num) (by norm_num)
  rw [h.1]
  norm_num

/-- C6: the full-display rectangle yields the identity matrix, and the
right half of a 1920×1080 display yields m00 = 0.5, m11 = 1.0, m02 = 0.5,
m12 = 0, m22 = 1, all other entries 0. -/
theorem C6_identity_and_right_half :
    (∀ (display_width display_height : ℤ) (m : Matrix3),
        0 < display_width → 0 < display_height →
        set_transformation_matrix display_width display_height m 0 0
          display_width display_height = identityMatrix) ∧
    (∀ m : Matrix3,
        set_transformation_matrix 1920 1080 m 960 0 960 1080 =
          rightHalfMatrix) := by
  constructor
  · intro W H m hW hH
    rw [stm_closed]
    funext i
    fin_cases i <;>
      simp [identityMatrix, div_self, Int.cast_ne_zero, hW.ne', hH.ne']
  · intro m
    rw [stm_closed]
    funext i
    fin_cases i <;> norm_num [rightHalfMatrix]

/-- Witness for C6 on a 5×7 display. -/
theorem C6_identity_witness :
    set_transformation_matrix 5 7 zeroM 0 0 5 7 = identityMatrix :=
  C6_identity_and_right_half.1 5 7 zeroM (by norm_num) (by norm_num)

/-- C10: the builder's result does not depend on the matrix contents
before the call (it resets to identity first), so the RandR resolver's
preceding `matrix_set_unity` is redundant. -/
theorem C10_initial_matrix_irrelevant :
    (∀ (width height offset_x offset_y rect_w rect_h : ℤ) (m1 m2 : Matrix3),
        set_transformation_matrix width height m1 offset_x offset_y rect_w
            rect_h =
          set_transformation_matrix width height m2 offset_x offset_y rect_w
            rect_h) ∧
    (∀ (env : RandrEnv) (deviceid : ℕ) (m1 m2 : Matrix3)
        (output_name : String),
        map_crtc_xrandr env deviceid m1 output_name =
          map_crtc_xrandr env deviceid m2 output_name) ∧
    (∀ (width height offset_x offset_y rect_w rect_h : ℤ) (m : Matrix3),
        set_transformation_matrix width height (matrix_set_unity m) offset_x
            offset_y rect_w rect_h =
          set_transformation_matrix width height m offset_x offset_y rect_w
            rect_h) := by
  refine ⟨fun _ _ _ _ _ _ _ _ => rfl, fun env dev m1 m2 nm => ?_,
    fun _ _ _ _ _ _ _ => rfl⟩
  unfold map_crtc_xrandr
  rcases hx : xrandrLoop nm env.outputs none with ⟨found, last⟩
  cases found <;> cases last <;> rfl

/-- C2: once both atoms resolve, the read must succeed with type = FLOAT
atom, format 32, exactly 9 items and zero bytes remaining; otherwise the
applier prints the validation diagnostic, fails, and writes nothing. -/
theorem C2_property_validation (env : XEnv) (deviceid : ℕ) (m : Matrix3)
    (hf : env.atomFLOAT ≠ 0) (hm : env.atomMatrix ≠ 0) :
    (¬ (env.propRead.rc = Success ∧
          env.propRead.type_return = env.atomFLOAT ∧
          env.propRead.format_return = 32 ∧ env.propRead.nitems = 9 ∧
          env.propRead.bytes_after = 0) →
        (apply_matrix env deviceid m).status = EXIT_FAILURE ∧
        (apply_matrix env deviceid m).wrote = none ∧
        (apply_matrix env deviceid m).messages =
          [(OutStream.stderr, retrieveFailMsg)]) ∧
    ((env.propRead.rc = Success ∧
        env.propRead.type_return = env.atomFLOAT ∧
        env.propRead.format_return = 32 ∧ env.propRead.nitems = 9 ∧
        env.propRead.bytes_after = 0) →
      (apply_matrix env deviceid m).status = EXIT_SUCCESS ∧
      (apply_matrix env deviceid m).wrote = some (matrixValues m)) := by
  constructor
  · intro hbad
    simp only [apply_matrix, if_neg hf, if_neg hm]
    rw [if_pos]
    · exact ⟨rfl, rfl, rfl⟩
    · tauto
  · intro hgood
    simp only [apply_matrix, if_neg hf, if_neg hm]
    rw [if_neg]
    · exact ⟨rfl, rfl⟩
    · push_neg
      exact ⟨hgood.1, hgood.2.1.symm, hgood.2.2.1, hgood.2.2.2.1,
        hgood.2.2.2.2⟩

/-- Witness for C2: a read reply with 8 elements is rejected and no write
is attempted. -/
theorem C2_property_validation_witness :
    (apply_matrix ⟨1, 2, ⟨0, 1, 32, 8, 0⟩⟩ 5 zeroM).status = EXIT_FAILURE ∧
    (apply_matrix ⟨1, 2, ⟨0, 1, 32, 8, 0⟩⟩ 5 zeroM).wrote = none ∧
    (apply_matrix ⟨1, 2, ⟨0, 1, 32, 8, 0⟩⟩ 5 zeroM).messages =
      [(OutStream.stderr, retrieveFailMsg)] :=
  (C2_property_validation ⟨1, 2, ⟨0, 1, 32, 8, 0⟩⟩ 5 zeroM (by decide)
    (by decide)).1 (by decide)

/-- C7: the claim says the read buffer is freed exactly once on every path
that performed the read.  In the source, the validation-failure path
(`return EXIT_FAILURE` at line 96) returns without `XFree(data.c)`: the
read was performed but the buffer is never freed (it is freed only on the
success path). -/
theorem C7_leak_on_validation_failure :
    (apply_matrix ⟨1, 2, ⟨0, 1, 32, 8, 0⟩⟩ 5 zeroM).readPerformed = true ∧
    (apply_matrix ⟨1, 2, ⟨0, 1, 32, 8, 0⟩⟩ 5 zeroM).freedBuffer = false ∧
    (apply_matrix ⟨1, 2, ⟨0, 1, 32, 9, 0⟩⟩ 5 zeroM).readPerformed = true ∧
    (apply_matrix ⟨1, 2, ⟨0, 1, 32, 9, 0⟩⟩ 5 zeroM).freedBuffer = true := by
  decide

/-- C3 counterexample: with no NV-CONTROL, RANDR present, and a reported
version of (0, 5000), the version is below 1.2 but the source's encoded
comparison `0 * 1000 + 5000 < 1002` is false, so the RandR resolver is
selected, refuting the claimed equivalence. -/
theorem C3_counterexample :
    ¬ (selectBackend false true (some (0, 5000)) = Backend.xinerama ↔
        specSelectsXinerama false true (some (0, 5000))) := by
  decide

/-- C3 amended: for version reports whose minor component lies in
[0, 1000) — which includes every real RandR version — the source's
`maj * 1000 + min < 1002` test coincides with "below 1.2", and the
dispatcher selects Xinerama iff NV-CONTROL is present, or RANDR is
absent, or the version is below 1.2 (a failed version query counts as
below); otherwise it selects RandR. -/
theorem C3_backend_selection (nvPresent randrPresent : Bool)
    (ver : Option (ℤ × ℤ))
    (hmi : ∀ maj mi, ver = some (maj, mi) → 0 ≤ mi ∧ mi < 1000) :
    (selectBackend nvPresent randrPresent ver = Backend.xinerama ↔
      specSelectsXinerama nvPresent randrPresent ver) ∧
    (selectBackend nvPresent randrPresent ver = Backend.randr ↔
      ¬ specSelectsXinerama nvPresent randrPresent ver) := by
  cases ver with
  | none =>
    cases nvPresent <;> cases randrPresent <;>
      simp [selectBackend, rrVersionBelow, specSelectsXinerama, versionBelow12]
  | some p =>
    obtain ⟨maj, mi⟩ := p
    obtain ⟨h0, h1⟩ := hmi maj mi rfl
    by_cases hv : maj * 1000 + mi < 1002 <;>
      cases nvPresent <;> cases randrPresent <;>
        simp [selectBackend, rrVersionBelow, specSelectsXinerama,
          versionBelow12, hv] <;>
        omega

/-- Witness for C3 at the realistic report (1, 3): RandR 1.3 without
NV-CONTROL selects the RandR resolver. -/
theorem C3_backend_selection_witness :
    selectBackend false true (some (1, 3)) = Backend.randr ↔
      ¬ specSelectsXinerama false true (some (1, 3)) :=
  (C3_backend_selection false true (some (1, 3))
    (fun maj mi hv => by
      injection hv with h
      injection h with h1 h2
      omega)).2

lemma xrandrLoop_eq_of_firstMatch (output_name : String) (o : OutputInfo) :
    ∀ (l : List OutputInfo) (acc : Option CrtcInfo),
      firstMatchingOutput l output_name = some o →
      xrandrLoop output_name l acc = (true, some o.crtcInfo) := by
  intro l
  induction l with
  | nil => intro acc h; simp [firstMatchingOutput] at h
  | cons x rest ih =>
    intro acc h
    by_cases he : ((x.crtc != 0) && (x.connection == RR_Connected)) = true
    · have he' := he
      simp only [Bool.and_eq_true, bne_iff_ne, ne_eq, beq_iff_eq] at he'
      obtain ⟨hc, hco⟩ := he'
      have hskip : ¬ (x.crtc = 0 ∨ x.connection ≠ RR_Connected) := by
        rintro (h1 | h1)
        · exact hc h1
        · exact h1 hco
      rw [firstMatchingOutput,
        @List.filter_cons_of_pos _
          (fun o => (o.crtc != 0) && (o.connection == RR_Connected)) x rest
          he] at h
      by_cases hn : (x.name == output_name) = true
      · rw [@List.find?_cons_of_pos _ (fun o => o.name == output_name) x _
          hn] at h
        have hxo : x = o := by
          simpa using h
        subst hxo
        simp only [xrandrLoop, if_neg hskip,
          if_pos (show x.name = output_name from by simpa using hn)]
      · rw [@List.find?_cons_of_neg _ (fun o => o.name == output_name) x _
          hn] at h
        have hname : ¬ x.name = output_name := by simpa using hn
        simp only [xrandrLoop, if_neg hskip, if_neg hname]
        exact ih (some x.crtcInfo) h
    · have hskip : x.crtc = 0 ∨ x.connection ≠ RR_Connected := by
        simp only [Bool.and_eq_true, bne_iff_ne, ne_eq, beq_iff_eq] at he
        tauto
      rw [firstMatchingOutput,
        @List.filter_cons_of_neg _
          (fun o => (o.crtc != 0) && (o.connection == RR_Connected)) x rest
          he] at h
      simp only [xrandrLoop, if_pos hskip]
      exact ih acc h

lemma xrandrLoop_not_found (output_name : String) :
    ∀ (l : List OutputInfo) (acc : Option CrtcInfo),
      firstMatchingOutput l output_name = none →
      (xrandrLoop output_name l acc).1 = false := by
  intro l
  induction l with
  | nil => intro acc _; rfl
  | cons x rest ih =>
    intro acc h
    by_cases he : ((x.crtc != 0) && (x.connection == RR_Connected)) = true
    · have he' := he
      simp only [Bool.and_eq_true, bne_iff_ne, ne_eq, beq_iff_eq] at he'
      obtain ⟨hc, hco⟩ := he'
      have hskip : ¬ (x.crtc = 0 ∨ x.connection ≠ RR_Connected) := by
        rintro (h1 | h1)
        · exact hc h1
        · exact h1 hco
      rw [firstMatchingOutput,
        @List.filter_cons_of_pos _
          (fun o => (o.crtc != 0) && (o.connection == RR_Connected)) x rest
          he] at h
      by_cases hn : (x.name == output_name) = true
      · rw [@List.find?_cons_of_pos _ (fun o => o.name == output_name) x _
          hn] at h
        simp at h
      · rw [@List.find?_cons_of_neg _ (fun o => o.name == output_name) x _
          hn] at h
        have hname : ¬ x.name = output_name := by simpa using hn
        simp only [xrandrLoop, if_neg hskip, if_neg hname]
        exact ih (some x.crtcInfo) h
    · have hskip : x.crtc = 0 ∨ x.connection ≠ RR_Connected := by
        simp only [Bool.and_eq_true, bne_iff_ne, ne_eq, beq_iff_eq] at he
        tauto
      rw [firstMatchingOutput,
        @List.filter_cons_of_neg _
          (fun o => (o.crtc != 0) && (o.connection == RR_Connected)) x rest
          he] at h
      simp only [xrandrLoop, if_pos hskip]
      exact ih acc h

/-- C5: the RandR resolver scans outputs in server order, skipping those
without a CRTC or not connected; at the first name match it builds the
matrix from that output's CRTC rectangle and applies it; with no match it
reports the not-found diagnostic and fails with no write attempted. -/
theorem C5_randr_scan (env : RandrEnv) (deviceid : ℕ) (m0 : Matrix3)
    (output_name : String) :
    (∀ o : OutputInfo,
        firstMatchingOutput env.outputs output_name = some o →
        map_crtc_xrandr env deviceid m0 output_name =
          (let m := set_transformation_matrix env.width env.height
            (matrix_set_unity m0) o.crtcInfo.x o.crtcInfo.y o.crtcInfo.width
            o.crtcInfo.height
           let a := apply_matrix env.xenv deviceid m
           ⟨a.status, a.messages, a.wrote, false⟩)) ∧
    (firstMatchingOutput env.outputs output_name = none →
        map_crtc_xrandr env deviceid m0 output_name =
          ⟨EXIT_FAILURE, [(OutStream.stdout, notFoundMsg output_name)], none,
            false⟩) := by
  constructor
  · intro o ho
    have hloop := xrandrLoop_eq_of_firstMatch output_name o env.outputs none ho
    unfold map_crtc_xrandr
    rw [hloop]
  · intro hnone
    have hloop := xrandrLoop_not_found output_name env.outputs none hnone
    unfold map_crtc_xrandr
    rcases hx : xrandrLoop output_name env.outputs none with ⟨found, last⟩
    rw [hx] at hloop
    simp only at hloop
    subst hloop
    rfl

/-- Witness for C5: the first connected output with a CRTC named "LVDS1"
is matched and its CRTC rectangle is applied. -/
theorem C5_randr_scan_witness :
    map_crtc_xrandr envR5 2 zeroM "LVDS1" =
      ⟨EXIT_SUCCESS, [],
        some (matrixValues (set_transformation_matrix 1920 1080
          (matrix_set_unity zeroM) 0 0 960 1080)), false⟩ := by
  have h := (C5_randr_scan envR5 2 zeroM "LVDS1").1
    ⟨1, 0, "LVDS1", ⟨0, 0, 960, 1080⟩⟩ (by decide)
  rw [h]
  rfl

/-- C4: with the Xinerama extension present, a name shorter than 6
characters or without the "HEAD-" prefix is rejected as invalid; otherwise
the character after the prefix is parsed as the index `c - '0'`, and the
resolver fails when the screen count is zero, fails with the out-of-range
diagnostic when the count is ≤ the index, and otherwise maps the indexed
screen's rectangle. -/
theorem C4_xinerama_errors (env : XinEnv) (deviceid : ℕ) (m0 : Matrix3)
    (output_name : String) (hext : env.extPresent = true) :
    ((output_name.toList.length < 6 ∨
        output_name.toList.take 5 ≠ headPrefixList) →
      map_crtc_xinerama env deviceid m0 output_name =
        ⟨EXIT_FAILURE, [(OutStream.stderr, invalidNameMsg)], none, false⟩) ∧
    (¬ (output_name.toList.length < 6 ∨
        output_name.toList.take 5 ≠ headPrefixList) →
      (env.screens.length = 0 →
        map_crtc_xinerama env deviceid m0 output_name =
          ⟨EXIT_FAILURE, [(OutStream.stderr, noScreensMsg)], none, false⟩) ∧
      (env.screens.length ≠ 0 →
        ((env.screens.length : ℤ) ≤
            ((output_name.toList.getD 5 ' ').toNat : ℤ) - 48 →
          map_crtc_xinerama env deviceid m0 output_name =
            ⟨EXIT_FAILURE,
              [(OutStream.stderr,
                outOfRangeMsg (env.screens.length : ℤ) output_name)], none,
              false⟩) ∧
        (∀ _hlt : ((output_name.toList.getD 5 ' ').toNat : ℤ) - 48 <
            (env.screens.length : ℤ),
          ∀ _h0 : 0 ≤ ((output_name.toList.getD 5 ' ').toNat : ℤ) - 48,
          map_crtc_xinerama env deviceid m0 output_name =
            (let s := env.screens.get
              ⟨(((output_name.toList.getD 5 ' ').toNat : ℤ) - 48).toNat,
                by omega⟩
             let m := set_transformation_matrix env.width env.height
               (matrix_set_unity m0) s.x_org s.y_org s.width s.height
             let a := apply_matrix env.xenv deviceid m
             ⟨a.status, a.messages, a.wrote, false⟩)))) := by
  have hext' : ¬ (env.extPresent = false) := by simp [hext]
  constructor
  · intro hbad
    unfold map_crtc_xinerama
    rw [if_neg hext', if_pos hbad]
  · intro hgood
    refine ⟨?_, ?_⟩
    · intro hzero
      unfold map_crtc_xinerama
      rw [if_neg hext', if_neg hgood, if_pos (by exact_mod_cast hzero)]
    · intro hnz
      have hnz' : ¬ ((env.screens.length : ℤ) = 0) := by exact_mod_cast hnz
      refine ⟨?_, ?_⟩
      · intro hle
        unfold map_crtc_xinerama
        rw [if_neg hext', if_neg hgood, if_neg hnz', if_pos hle]
      · intro hlt h0
        unfold map_crtc_xinerama
        rw [if_neg hext', if_neg hgood, if_neg hnz',
          if_neg (show ¬ ((env.screens.length : ℤ) ≤
            ((output_name.toList.getD 5 ' ').toNat : ℤ) - 48) from by omega),
          dif_pos ⟨h0, by omega⟩]

/-- Witness for C4: with 2 screens, "HEAD-3" is out of range, "FOO-1" is
an invalid name, and "HEAD-0" maps the left half. -/
theorem C4_xinerama_errors_witness :
    map_crtc_xinerama envXin2 3 zeroM "HEAD-3" =
      ⟨EXIT_FAILURE,
        [(OutStream.stderr, outOfRangeMsg (envXin2.screens.length : ℤ)
          "HEAD-3")], none, false⟩ ∧
    map_crtc_xinerama envXin2 3 zeroM "FOO-1" =
      ⟨EXIT_FAILURE, [(OutStream.stderr, invalidNameMsg)], none, false⟩ ∧
    map_crtc_xinerama envXin2 3 zeroM "HEAD-0" =
      ⟨EXIT_SUCCESS, [],
        some (matrixValues (set_transformation_matrix 1920 1080
          (matrix_set_unity zeroM) 0 0 960 1080)), false⟩ := by
  refine ⟨?_, ?_, ?_⟩
  · exact (((C4_xinerama_errors envXin2 3 zeroM "HEAD-3" rfl).2
      (by decide)).2 (by decide)).1 (by decide)
  · exact (C4_xinerama_errors envXin2 3 zeroM "FOO-1" rfl).1 (by decide)
  · have h := (((C4_xinerama_errors envXin2 3 zeroM "HEAD-0" rfl).2
      (by decide)).2 (by decide)).2 (by decide) (by decide)
    rw [h]
    rfl

/-- C9 counterexample: "HEAD-!" passes the prefix/length validation and,
with 1 screen reported, passes both screen-count checks (the parsed index
is `'!' - '0' = -15`, and `nscreens <= head` is false for a negative
head), yet the read `screens[head]` is out of bounds. -/
theorem C9_counterexample :
    (map_crtc_xinerama envXin1 0 zeroM "HEAD-!").oob = true := by decide

/-- C9 amended: whenever the checks pass, the parsed index is strictly
below the screen count; it is additionally nonnegative — hence the read
`screens[head]` is in bounds — whenever the character after "HEAD-" is at
least `'0'` (in particular for every digit).  For characters below `'0'`
the index is negative and the read is out of bounds. -/
theorem C9_index_in_bounds (env : XinEnv) (deviceid : ℕ) (m0 : Matrix3)
    (output_name : String)
    (hc : 48 ≤ (output_name.toList.getD 5 ' ').toNat) :
    (map_crtc_xinerama env deviceid m0 output_name).oob = false := by
  unfold map_crtc_xinerama
  split_ifs with h1 h2 h3 h4 h5
  · rfl
  · rfl
  · rfl
  · rfl
  · rfl
  · exact absurd ⟨by omega, by omega⟩ h5

/-- Witness for C9 at "HEAD-1" with 2 screens. -/
theorem C9_index_in_bounds_witness :
    (map_crtc_xinerama envXin2 0 zeroM "HEAD-1").oob = false :=
  C9_index_in_bounds envXin2 0 zeroM "HEAD-1" (by decide)

lemma apply_stderr_only (env : XEnv) (deviceid : ℕ) (m : Matrix3) :
    ∀ p ∈ (apply_matrix env deviceid m).messages,
      p.1 = OutStream.stderr := by
  simp only [apply_matrix]
  split_ifs <;> simp

lemma apply_fail_nonempty (env : XEnv) (deviceid : ℕ) (m : Matrix3)
    (hfail : (apply_matrix env deviceid m).status = EXIT_FAILURE) :
    (apply_matrix env deviceid m).messages ≠ [] := by
  simp only [apply_matrix] at hfail ⊢
  split_ifs at hfail ⊢ <;> simp_all [EXIT_SUCCESS, EXIT_FAILURE]

lemma xinerama_fail_stderr (env : XinEnv) (deviceid : ℕ) (m0 : Matrix3)
    (output_name : String)
    (hoob : (map_crtc_xinerama env deviceid m0 output_name).oob = false)
    (hfail :
      (map_crtc_xinerama env deviceid m0 output_name).status = EXIT_FAILURE) :
    (map_crtc_xinerama env deviceid m0 output_name).messages ≠ [] ∧
    ∀ p ∈ (map_crtc_xinerama env deviceid m0 output_name).messages,
      p.1 = OutStream.stderr := by
  unfold map_crtc_xinerama at hoob hfail ⊢
  split_ifs at hoob hfail ⊢ with h1 h2 h3 h4 h5
  · exact ⟨by simp, by simp⟩
  · exact ⟨by simp, by simp⟩
  · exact ⟨by simp, by simp⟩
  · exact ⟨by simp, by simp⟩
  · simp only at hoob hfail ⊢
    exact ⟨apply_fail_nonempty _ _ _ hfail, apply_stderr_only _ _ _⟩

lemma xrandr_fail_diag (env : RandrEnv) (deviceid : ℕ) (m0 : Matrix3)
    (output_name : String)
    (hoob : (map_crtc_xrandr env deviceid m0 output_name).oob = false)
    (hfail :
      (map_crtc_xrandr env deviceid m0 output_name).status = EXIT_FAILURE) :
    (map_crtc_xrandr env deviceid m0 output_name).messages ≠ [] ∧
    ∀ p ∈ (map_crtc_xrandr env deviceid m0 output_name).messages,
      p.1 = OutStream.stderr ∨ p.2 = notFoundMsg output_name := by
  unfold map_crtc_xrandr at hoob hfail ⊢
  rcases hx : xrandrLoop output_name env.outputs none with ⟨found, last⟩
  rw [hx] at hoob hfail
  cases found
  · exact ⟨by simp, by simp⟩
  · cases last
    · simp at hoob
    · simp only at hoob hfail ⊢
      refine ⟨apply_fail_nonempty _ _ _ hfail, ?_⟩
      intro p hp
      exact Or.inl (apply_stderr_only _ _ _ p hp)

/-- C8 counterexample: the RandR resolver's output-not-found failure path
uses `printf`, so its diagnostic goes to standard output, not standard
error — refuting the claim that every failure path prints its diagnostic
to stderr. -/
theorem C8_counterexample :
    (map_to_crtc envD8 zeroM 2 ["touchpad", "VGA1"] "map-to-crtc"
      "<device> <output>").status = EXIT_FAILURE ∧
    (map_to_crtc envD8 zeroM 2 ["touchpad", "VGA1"] "map-to-crtc"
      "<device> <output>").messages =
      [(OutStream.stdout, notFoundMsg "VGA1")] ∧
    ∀ p ∈ (map_to_crtc envD8 zeroM 2 ["touchpad", "VGA1"] "map-to-crtc"
      "<device> <output>").messages, p.1 ≠ OutStream.stderr := by
  decide

/-- C8 amended: on every defined-behavior failure path the unit prints at
least one human-readable diagnostic and returns failure; every diagnostic
goes to standard error except the RandR output-not-found message, which
the source prints to standard output via `printf`. -/
theorem C8_failure_diagnostics (env : DispatchEnv) (m0 : Matrix3) (argc : ℕ)
    (argv : List String) (name desc : String)
    (hoob : (map_to_crtc env m0 argc argv name desc).oob = false)
    (hfail : (map_to_crtc env m0 argc argv name desc).status = EXIT_FAILURE) :
    (map_to_crtc env m0 argc argv name desc).messages ≠ [] ∧
    ∀ p ∈ (map_to_crtc env m0 argc argv name desc).messages,
      p.1 = OutStream.stderr ∨ p.2 = notFoundMsg (argv.getD 1 "") := by
  unfold map_to_crtc at hoob hfail ⊢
  split_ifs at hoob hfail ⊢ with h1
  · exact ⟨by simp, by simp⟩
  · rcases hdev : env.device (argv.getD 0 "") with _ | dev <;>
      rw [hdev] at hoob hfail
    · exact ⟨by simp, by simp⟩
    · rcases hb : selectBackend env.nvPresent env.randrPresent env.rrVersion
        with _ | _ <;> rw [hb] at hoob hfail
      · have h :=
          xinerama_fail_stderr env.xin dev m0 (argv.getD 1 "") hoob hfail
        exact ⟨h.1, fun p hp => Or.inl (h.2 p hp)⟩
      · exact xrandr_fail_diag env.randr dev m0 (argv.getD 1 "") hoob hfail

/-- Witness for C8 (amended): a usage error prints a diagnostic. -/
theorem C8_failure_diagnostics_witness :
    (map_to_crtc envD8 zeroM 1 ["touchpad"] "map-to-crtc"
      "<device> <output>").messages ≠ [] ∧
    ∀ p ∈ (map_to_crtc envD8 zeroM 1 ["touchpad"] "map-to-crtc"
      "<device> <output>").messages,
      p.1 = OutStream.stderr ∨ p.2 = notFoundMsg (["touchpad"].getD 1 "") :=
  C8_failure_diagnostics envD8 zeroM 1 ["touchpad"] "map-to-crtc"
    "<device> <output>" (by decide) (by decide)
